import Mathlib

/-!
# Verification of the canvas/renderer lifecycle controller and range mapping

Shallow embedding of the browser-client code:

* `src/engine/yew_frontend/src/lib.rs` — the application shell `App`, its
  message type `AppMsg`, the `RecreatingCanvas` lifecycle enum, the
  `update`/`view`/`rendered` component methods;
* `src/client/src/ui/status_overlay.rs` — the status overlay feeding a
  score-to-progress ratio into a meter widget;
* `common_util::range::map_ranges` — not present under `src/`, modelled from
  the spec (§4.2) over `ℚ`.

Modelling conventions:

* Machine floats (`f32`/`f64`) are modelled as `ℚ` (exact real arithmetic);
  all concrete values appearing in the claims (0.5, 1.0, 0.0, 1.5) are exactly
  representable in both.
* External collaborators (the `Infrastructure`, its renderer, the error log)
  are modelled by the observations the shell makes of them: a success/failure
  flag for renderer recreation, counters of renderer-recreation attempts, of
  driven frames and of reported errors.
* The Yew framework's single-threaded scheduler processes a message sent from
  a component callback, the re-render it requests, and the `rendered` hook
  synchronously, before the browser event loop regains control.  Messages the
  `rendered` hook sends (`RecreateCanvasPart2`, `RecreateRenderer`) are
  therefore processed before any further external event (a DOM event or a
  `requestAnimationFrame` callback) can be delivered.  `processMsg` below
  models exactly this: one externally delivered message followed by the
  drained chain of `rendered`-generated follow-up messages.
-/

/-- `RecreatingCanvas` from `yew_frontend/src/lib.rs` lines 77–86:
`None` = no canvas recreation in progress (the spec's `Idle`),
`Started` = canvas is removed (the spec's `Tearing Down`),
`Finished` = canvas is restored (the spec's `Ready To Rebuild`). -/
inductive RecreatingCanvas where
  | None
  | Started
  | Finished
deriving DecidableEq, Repr

/-- The `Infrastructure<G>` collaborator, reduced to the observations the
application shell makes of it: whether `recreate_renderer` succeeds, how many
times it was invoked, and how many frames were driven via `frame`. -/
structure Infrastructure where
  recreateOk : Bool
  recreations : Nat
  framesDriven : Nat
deriving DecidableEq, Repr

/-- `infrastructure.recreate_renderer()` (external collaborator): returns
`Ok` or `Err` according to the environment, modelled by the `recreateOk`
flag; a successful call reconstructs the renderer (counted). -/
def recreate_renderer (infra : Infrastructure) : Except String Infrastructure :=
  if infra.recreateOk then
    Except.ok { infra with recreations := infra.recreations + 1 }
  else
    Except.error "could not recreate renderer"

/-- `infrastructure.frame(time)` (external collaborator): drives one per-frame
update of the renderer.  The timestamp is consumed by the renderer outside
this model, so only the invocation is recorded. -/
def Infrastructure.frame (infra : Infrastructure) (_time : ℚ) : Infrastructure :=
  { infra with framesDriven := infra.framesDriven + 1 }

/-- The `App` component state (`yew_frontend/src/lib.rs` lines 54–75),
restricted to the fields the lifecycle claims concern.  `animationFrames`
counts `create_animation_frame` registrations (the `_animation_frame` field
holds the latest); `reportedErrors` counts the error notifications emitted on
the renderer-recreation failure path (`console_log!("could not recreate
renderer: ...")`, line 268). -/
structure App where
  infrastructure : Option Infrastructure
  fatal_error : Option String
  recreating_canvas : RecreatingCanvas
  reportedErrors : Nat
  animationFrames : Nat
deriving DecidableEq, Repr

/-- `App::create` (lines 152–226): starts with no infrastructure, no fatal
error, `recreating_canvas` at its default (`None`), and one animation frame
registered. -/
def App.create : App :=
  { infrastructure := Option.none
    fatal_error := Option.none
    recreating_canvas := RecreatingCanvas.None
    reportedErrors := 0
    animationFrames := 1 }

/-- The messages of `AppMsg<G>` (lines 91–125) that the lifecycle claims
concern.  `Frame` carries the `requestAnimationFrame` timestamp. -/
inductive AppMsg where
  | RecreateCanvas
  | RecreateCanvasPart2
  | RecreateRenderer
  | FatalError (e : String)
  | Frame (time : ℚ)

/-- `App::update` (lines 228–396), restricted to the embedded messages.
Returns the new state and the `bool` return value of the Rust method
(whether a re-render of the view is requested).

* `RecreateCanvas` (lines 254–258): set state `Started`, request re-render.
* `RecreateCanvasPart2` (lines 259–263): set state `Finished`, re-render.
* `RecreateRenderer` (lines 264–274): set state `None`; if infrastructure
  exists, attempt `recreate_renderer`, logging an error on failure; re-render.
* `FatalError` (lines 280–283): record the fatal error, re-render.
* `Frame` (lines 284–291): if state is not `Started` and infrastructure
  exists, drive `infrastructure.frame(time * 0.001)`; in every case register
  the next animation frame; no re-render. -/
def update (app : App) (msg : AppMsg) : App × Bool :=
  match msg with
  | AppMsg.RecreateCanvas =>
      ({ app with recreating_canvas := RecreatingCanvas.Started }, true)
  | AppMsg.RecreateCanvasPart2 =>
      ({ app with recreating_canvas := RecreatingCanvas.Finished }, true)
  | AppMsg.RecreateRenderer =>
      let app1 := { app with recreating_canvas := RecreatingCanvas.None }
      match app1.infrastructure with
      | Option.some infra =>
          match recreate_renderer infra with
          | Except.ok infra2 => ({ app1 with infrastructure := Option.some infra2 }, true)
          | Except.error _ =>
              ({ app1 with
                  infrastructure := Option.some infra
                  reportedErrors := app1.reportedErrors + 1 }, true)
      | Option.none => (app1, true)
  | AppMsg.FatalError e =>
      ({ app with fatal_error := Option.some e }, true)
  | AppMsg.Frame time =>
      let app1 :=
        if app.recreating_canvas ≠ RecreatingCanvas.Started then
          match app.infrastructure with
          | Option.some infra =>
              { app with infrastructure := Option.some (infra.frame (time * (0.001 : ℚ))) }
          | Option.none => app
        else app
      ({ app1 with animationFrames := app1.animationFrames + 1 }, false)

/-- The lifecycle part of `App::rendered` (lines 501–505): after a render
pass, `Started` sends `RecreateCanvasPart2` and `Finished` sends
`RecreateRenderer` back into the component's own message queue.  (The
first-render branch, which spawns the asynchronous infrastructure creation,
is an external collaborator and is not part of the lifecycle claims.) -/
def rendered (app : App) : Option AppMsg :=
  match app.recreating_canvas with
  | RecreatingCanvas.None => Option.none
  | RecreatingCanvas.Started => Option.some AppMsg.RecreateCanvasPart2
  | RecreatingCanvas.Finished => Option.some AppMsg.RecreateRenderer

/-- The follow-up message produced after processing one message: `rendered`
runs (and may send a message) exactly when `update` requested a re-render. -/
def followup (app : App) (redraw : Bool) : Option AppMsg :=
  if redraw then rendered app else Option.none

/-- Process one externally delivered message together with the synchronously
drained chain of `rendered`-generated follow-up messages, as the Yew
scheduler does before yielding to the browser.  Returns the final state and
the sequence of `recreating_canvas` values observed after each message.

The chain needs at most two follow-ups: `rendered` only ever sends
`RecreateCanvasPart2` (from `Started`, leading to `Finished`) or
`RecreateRenderer` (from `Finished`, leading to `None`, where `rendered`
sends nothing).  `processMsg_drained` below proves the unrolling is
exhaustive. -/
def processMsg (app : App) (msg : AppMsg) : App × List RecreatingCanvas :=
  let s1 := update app msg
  match followup s1.1 s1.2 with
  | Option.none => (s1.1, [s1.1.recreating_canvas])
  | Option.some m1 =>
    let s2 := update s1.1 m1
    match followup s2.1 s2.2 with
    | Option.none => (s2.1, [s1.1.recreating_canvas, s2.1.recreating_canvas])
    | Option.some m2 =>
      let s3 := update s2.1 m2
      (s3.1, [s1.1.recreating_canvas, s2.1.recreating_canvas, s3.1.recreating_canvas])

/-- The external events the lifecycle claims quantify over: a rebuild request
(the `recreate_renderer_callback` of line 404 emits `AppMsg::RecreateCanvas`)
and an animation-frame tick (the callback of line 137 emits
`AppMsg::Frame`). -/
inductive ExternalEvent where
  | RequestRebuild
  | Tick (time : ℚ)

/-- The message an external event delivers to `App::update`. -/
def eventMsg : ExternalEvent → AppMsg
  | ExternalEvent.RequestRebuild => AppMsg.RecreateCanvas
  | ExternalEvent.Tick t => AppMsg.Frame t

/-- Process one external event (message plus drained follow-ups). -/
def processEvent (app : App) (e : ExternalEvent) : App × List RecreatingCanvas :=
  processMsg app (eventMsg e)

/-- Run a sequence of external events, concatenating the observed
`recreating_canvas` traces. -/
def runEvents (app : App) : List ExternalEvent → App × List RecreatingCanvas
  | [] => (app, [])
  | e :: rest =>
      ((runEvents (processEvent app e).1 rest).1,
        (processEvent app e).2 ++ (runEvents (processEvent app e).1 rest).2)

/-- The number of rebuild requests in an event sequence. -/
def countRebuilds : List ExternalEvent → Nat
  | [] => 0
  | ExternalEvent.RequestRebuild :: rest => countRebuilds rest + 1
  | ExternalEvent.Tick _ :: rest => countRebuilds rest

/-- The render-suppression condition of the `Frame` handler (line 285): the
renderer's per-frame update runs only when this is `true`. -/
def should_render_frame (app : App) : Bool :=
  decide (app.recreating_canvas ≠ RecreatingCanvas.Started)

/-- The number of per-frame updates the renderer has been driven through
(`0` when no infrastructure exists yet). -/
def framesOf (app : App) : Nat :=
  match app.infrastructure with
  | Option.some infra => infra.framesDriven
  | Option.none => 0

/-- The rendered view (`App::view`, lines 398–484), reduced to the
observations the claims concern: the canvas element is emitted exactly when
`recreating_canvas != Started` (line 455), and the fatal-error overlay shows
when a fatal error is recorded (line 466; the connection-lost overlay depends
on an external collaborator and is out of scope). -/
structure ViewHtml where
  hasCanvas : Bool
  showsFatalOverlay : Bool
deriving DecidableEq, Repr

/-- `App::view`, see `ViewHtml`. -/
def view (app : App) : ViewHtml :=
  { hasCanvas := decide (app.recreating_canvas ≠ RecreatingCanvas.Started)
    showsFatalOverlay := app.fatal_error.isSome }

/-- Modelled from the spec: `common_util::range::map_ranges` is called by
`status_overlay.rs` but its source is not under `src/`.  Per spec §4.2:
computes `t = (value - s0) / (s1 - s0)`; if `clamp` is true, `t` is first
restricted to `[0, 1]`; the result is `d0 + t * (d1 - d0)`.  Intervals are
passed by their endpoints (`source_interval = [s0, s1)`,
`dest_interval = [d0, d1)`); floats are modelled as `ℚ`. -/
def map_ranges (value s0 s1 d0 d1 : ℚ) (clamp : Bool) : ℚ :=
  let t := (value - s0) / (s1 - s0)
  let t := if clamp then max 0 (min 1 t) else t
  d0 + t * (d1 - d0)

/-- The status overlay output (`status_overlay.rs` lines 19–53), reduced to
the meter-related observations: the computed progress ratio, whether the
meter is rendered, the value fed to the meter widget, the percentage shown in
its label, and the displayed next level. -/
structure StatusOverlayView where
  progress : ℚ
  meterShown : Bool
  meterValue : ℚ
  meterPercent : Nat
  next_level : Nat
deriving DecidableEq, Repr

/-- `status_overlay` (lines 19–53).  `level_to_score` and `MAX_BOAT_LEVEL`
live in the external `common` crate and are taken as parameters.  The label
shows `(progress * 100.0) as u8` (line 49); with `clamp = true` the progress
lies in `[0, 1]`, so the saturating float-to-integer cast equals the floor
taken here. -/
def status_overlay (level_to_score : Nat → Nat) (maxBoatLevel : Nat)
    (score : Nat) (level : Nat) : StatusOverlayView :=
  let next_level := level + 1
  let level_score := level_to_score level
  let next_level_score := level_to_score next_level
  let progress :=
    map_ranges (score : ℚ) (level_score : ℚ) (next_level_score : ℚ) 0 1 true
  { progress := progress
    meterShown := decide (next_level ≤ maxBoatLevel)
    meterValue := progress
    meterPercent := (Rat.floor (progress * 100)).toNat
    next_level := next_level }

/-- A concrete application state with a healthy renderer, used by witnesses. -/
def exampleApp : App :=
  { infrastructure := Option.some { recreateOk := true, recreations := 0, framesDriven := 0 }
    fatal_error := Option.none
    recreating_canvas := RecreatingCanvas.None
    reportedErrors := 0
    animationFrames := 1 }

/-- A concrete application state whose renderer recreation fails, used by
witnesses for the failure-path claims. -/
def failApp : App :=
  { infrastructure := Option.some { recreateOk := false, recreations := 0, framesDriven := 0 }
    fatal_error := Option.none
    recreating_canvas := RecreatingCanvas.None
    reportedErrors := 0
    animationFrames := 1 }

theorem update_recreateRenderer_rc (app : App) :
    (update app AppMsg.RecreateRenderer).1.recreating_canvas = RecreatingCanvas.None := by
  unfold update
  rcases app.infrastructure with _ | infra
  · rfl
  · unfold recreate_renderer
    by_cases h : infra.recreateOk <;> simp [h]

theorem update_recreateRenderer_redraw (app : App) :
    (update app AppMsg.RecreateRenderer).2 = true := by
  unfold update
  rcases app.infrastructure with _ | infra
  · rfl
  · unfold recreate_renderer
    by_cases h : infra.recreateOk <;> simp [h]

theorem processEvent_rebuild_trace (app : App) :
    (processEvent app ExternalEvent.RequestRebuild).2 =
      [RecreatingCanvas.Started, RecreatingCanvas.Finished, RecreatingCanvas.None] := by
  unfold processEvent eventMsg processMsg
  rcases happ : app.infrastructure with _ | infra
  · simp [update, followup, rendered, happ]
  · by_cases h : infra.recreateOk <;>
      simp [update, followup, rendered, recreate_renderer, happ, h]

theorem processEvent_rebuild_rc (app : App) :
    (processEvent app ExternalEvent.RequestRebuild).1.recreating_canvas =
      RecreatingCanvas.None := by
  unfold processEvent eventMsg processMsg
  rcases happ : app.infrastructure with _ | infra
  · simp [update, followup, rendered, happ]
  · by_cases h : infra.recreateOk <;>
      simp [update, followup, rendered, recreate_renderer, happ, h]

theorem processEvent_tick_rc (app : App) (t : ℚ) :
    (processEvent app (ExternalEvent.Tick t)).1.recreating_canvas =
      app.recreating_canvas := by
  unfold processEvent eventMsg processMsg
  rcases happ : app.infrastructure with _ | infra <;>
    by_cases h : app.recreating_canvas = RecreatingCanvas.Started <;>
      simp [update, followup, rendered, happ, h]

theorem processEvent_tick_trace (app : App) (t : ℚ) :
    (processEvent app (ExternalEvent.Tick t)).2 = [app.recreating_canvas] := by
  unfold processEvent eventMsg processMsg
  rcases happ : app.infrastructure with _ | infra <;>
    by_cases h : app.recreating_canvas = RecreatingCanvas.Started <;>
      simp [update, followup, rendered, happ, h]

theorem processEvent_tick_eq (app : App) (t : ℚ) :
    (processEvent app (ExternalEvent.Tick t)).1 = (update app (AppMsg.Frame t)).1 := by
  unfold processEvent eventMsg processMsg followup
  simp [update]

theorem processEvent_rebuild_infrastructure (app : App) (infra : Infrastructure)
    (hinf : app.infrastructure = Option.some infra) :
    ∃ infra2, (processEvent app ExternalEvent.RequestRebuild).1.infrastructure = Option.some infra2 ∧
      infra2.framesDriven = infra.framesDriven := by
  unfold processEvent eventMsg processMsg
  by_cases h : infra.recreateOk <;>
    simp [update, followup, rendered, recreate_renderer, hinf, h]

theorem runEvents_idle (evs : List ExternalEvent) :
    ∀ app : App, app.recreating_canvas = RecreatingCanvas.None →
      (runEvents app evs).1.recreating_canvas = RecreatingCanvas.None ∧
      ((runEvents app evs).2.filter (fun s => decide (s ≠ RecreatingCanvas.None))) =
        (List.replicate (countRebuilds evs)
          [RecreatingCanvas.Started, RecreatingCanvas.Finished]).flatten := by
  induction evs with
  | nil => intro app h; simp [runEvents, countRebuilds, h]
  | cons e rest ih =>
    intro app h
    cases e with
    | RequestRebuild =>
      obtain ⟨ih1, ih2⟩ := ih _ (processEvent_rebuild_rc app)
      refine ⟨by simpa [runEvents] using ih1, ?_⟩
      simp only [ne_eq, decide_not] at ih2
      simp [runEvents, processEvent_rebuild_trace, countRebuilds, List.filter_append, ih2,
        List.replicate_succ]
    | Tick t =>
      have hrc := processEvent_tick_rc app t
      rw [h] at hrc
      obtain ⟨ih1, ih2⟩ := ih _ hrc
      refine ⟨by simpa [runEvents] using ih1, ?_⟩
      simp only [ne_eq, decide_not] at ih2
      simp [runEvents, processEvent_tick_trace, countRebuilds, List.filter_append, ih2, h]

theorem runEvents_append (app : App) (evs1 evs2 : List ExternalEvent) :
    runEvents app (evs1 ++ evs2) =
      ((runEvents (runEvents app evs1).1 evs2).1,
        (runEvents app evs1).2 ++ (runEvents (runEvents app evs1).1 evs2).2) := by
  induction evs1 generalizing app with
  | nil => simp [runEvents]
  | cons e rest ih => simp [runEvents, ih, List.append_assoc]

theorem processMsg_drained (app : App) (msg : AppMsg) :
    (processMsg app msg).1.recreating_canvas = RecreatingCanvas.None ∨
      ((processMsg app msg).1 = (update app msg).1 ∧ (update app msg).2 = false) := by
  cases msg with
  | RecreateCanvas => exact Or.inl (processEvent_rebuild_rc app)
  | RecreateCanvasPart2 =>
    left
    rcases happ : app.infrastructure with _ | infra
    · simp [processMsg, update, followup, rendered, happ]
    · by_cases h : infra.recreateOk <;>
        simp [processMsg, update, followup, rendered, recreate_renderer, happ, h]
  | RecreateRenderer =>
    left
    rcases happ : app.infrastructure with _ | infra
    · simp [processMsg, update, followup, rendered, happ]
    · by_cases h : infra.recreateOk <;>
        simp [processMsg, update, followup, rendered, recreate_renderer, happ, h]
  | FatalError e =>
    left
    rcases hrc : app.recreating_canvas with _ | _ | _ <;>
      rcases happ : app.infrastructure with _ | infra <;>
        try simp [processMsg, update, followup, rendered, happ, hrc]
    all_goals
      by_cases h : infra.recreateOk <;>
        simp [processMsg, update, followup, rendered, recreate_renderer, happ, hrc, h]
  | Frame t =>
    right
    exact ⟨by simp [processMsg, update, followup], rfl⟩

/-- Claim C1: for every sequence of rebuild requests and frame ticks starting
from the initial `Idle` (`None`) state, the observed lifecycle state sequence
restricted to non-`None` values is exactly `(Started, Finished)` repeated once
per rebuild request — so it matches the regex `(Tearing Down, Ready To
Rebuild)*`, never shows two consecutive `Started`, every `Finished` is
immediately preceded by `Started`, and the cycle
`None → Started → Finished → None` never skips a step (the run also ends back
at `None`). -/
theorem claim_C1_state_cycle (evs : List ExternalEvent) :
    (runEvents App.create evs).1.recreating_canvas = RecreatingCanvas.None ∧
    ((runEvents App.create evs).2.filter (fun s => decide (s ≠ RecreatingCanvas.None))) =
      (List.replicate (countRebuilds evs)
        [RecreatingCanvas.Started, RecreatingCanvas.Finished]).flatten :=
  runEvents_idle evs App.create rfl

/-- Claim C3: once `Started` is entered, the teardown/rebuild sequence always
runs to completion (or failure) before a new rebuild request takes effect:
after any sequence of external events from an `Idle` state the controller is
back at `None` (no transition is ever pending when a new external event
arrives), and appending one further rebuild request appends exactly one
complete uncorrupted `Started, Finished, None` block to the observed trace. -/
theorem claim_C3_debounce (app : App)
    (h : app.recreating_canvas = RecreatingCanvas.None) (evs : List ExternalEvent) :
    (runEvents app evs).1.recreating_canvas = RecreatingCanvas.None ∧
    (runEvents app (evs ++ [ExternalEvent.RequestRebuild])).2 =
      (runEvents app evs).2 ++
        [RecreatingCanvas.Started, RecreatingCanvas.Finished, RecreatingCanvas.None] := by
  refine ⟨(runEvents_idle evs app h).1, ?_⟩
  rw [runEvents_append]
  simp [runEvents, processEvent_rebuild_trace]

/-- Claim C3 witness: the debounce theorem applied to the initial state and a
one-tick history. -/
theorem claim_C3_witness :
    (runEvents App.create [ExternalEvent.Tick 0]).1.recreating_canvas =
        RecreatingCanvas.None ∧
    (runEvents App.create ([ExternalEvent.Tick 0] ++ [ExternalEvent.RequestRebuild])).2 =
      (runEvents App.create [ExternalEvent.Tick 0]).2 ++
        [RecreatingCanvas.Started, RecreatingCanvas.Finished, RecreatingCanvas.None] :=
  claim_C3_debounce App.create rfl [ExternalEvent.Tick 0]

/-- Claim C2 counterexample: the claim "starting from `Idle`, after one
`request_rebuild()` then one tick, rendering is suppressed" is false on the
code.  The teardown/rebuild transitions are driven by the render passes the
rebuild request itself triggers, so they complete during the request's own
processing: immediately afterwards the state is already back at `None`, the
render-suppression condition is `true`, and the first subsequent tick drives
the renderer's per-frame update (the frame counter increments). -/
theorem claim_C2_counterexample :
    (processEvent exampleApp ExternalEvent.RequestRebuild).1.recreating_canvas =
        RecreatingCanvas.None ∧
    should_render_frame (processEvent exampleApp ExternalEvent.RequestRebuild).1 = true ∧
    framesOf (processEvent (processEvent exampleApp ExternalEvent.RequestRebuild).1
        (ExternalEvent.Tick 0)).1 =
      framesOf (processEvent exampleApp ExternalEvent.RequestRebuild).1 + 1 ∧
    ¬ (should_render_frame (processEvent exampleApp ExternalEvent.RequestRebuild).1 = false ∧
       framesOf (processEvent (processEvent exampleApp ExternalEvent.RequestRebuild).1
          (ExternalEvent.Tick 0)).1 =
        framesOf (processEvent exampleApp ExternalEvent.RequestRebuild).1) := by
  decide

/-- Claim C2 (amended): on every frame tick with infrastructure present, the
shell drives the renderer's per-frame update if and only if the lifecycle
state is not `Started`; however, a rebuild request's two-phase transition
completes within the request's own processing, so starting from `Idle`, after
`request_rebuild()` the state is already back at `None`, rendering is not
suppressed, and the next tick drives the renderer's per-frame update. -/
theorem claim_C2_render_suppression (app : App) (infra : Infrastructure) (t : ℚ)
    (hinf : app.infrastructure = Option.some infra) :
    (framesOf (update app (AppMsg.Frame t)).1 =
      if app.recreating_canvas = RecreatingCanvas.Started then infra.framesDriven
      else infra.framesDriven + 1) ∧
    (app.recreating_canvas = RecreatingCanvas.None →
      (processEvent app ExternalEvent.RequestRebuild).1.recreating_canvas =
          RecreatingCanvas.None ∧
      should_render_frame (processEvent app ExternalEvent.RequestRebuild).1 = true ∧
      framesOf (processEvent (processEvent app ExternalEvent.RequestRebuild).1
          (ExternalEvent.Tick t)).1 =
        framesOf (processEvent app ExternalEvent.RequestRebuild).1 + 1) := by
  constructor
  · unfold update
    by_cases h : app.recreating_canvas = RecreatingCanvas.Started <;>
      simp [framesOf, hinf, Infrastructure.frame, h]
  · intro _
    obtain ⟨infra2, hinf2, _⟩ := processEvent_rebuild_infrastructure app infra hinf
    refine ⟨processEvent_rebuild_rc app, ?_, ?_⟩
    · simp [should_render_frame, processEvent_rebuild_rc app]
    · rw [processEvent_tick_eq]
      unfold update
      simp [framesOf, hinf2, Infrastructure.frame, processEvent_rebuild_rc app]

/-- Claim C2 witness: the amended theorem applied at a concrete idle state
with a healthy renderer. -/
theorem claim_C2_witness :
    exampleApp.infrastructure =
        Option.some { recreateOk := true, recreations := 0, framesDriven := 0 } ∧
    ((framesOf (update exampleApp (AppMsg.Frame 0)).1 =
        if exampleApp.recreating_canvas = RecreatingCanvas.Started then 0 else 0 + 1) ∧
      (exampleApp.recreating_canvas = RecreatingCanvas.None →
        (processEvent exampleApp ExternalEvent.RequestRebuild).1.recreating_canvas =
            RecreatingCanvas.None ∧
        should_render_frame (processEvent exampleApp ExternalEvent.RequestRebuild).1 = true ∧
        framesOf (processEvent (processEvent exampleApp ExternalEvent.RequestRebuild).1
            (ExternalEvent.Tick 0)).1 =
          framesOf (processEvent exampleApp ExternalEvent.RequestRebuild).1 + 1)) :=
  ⟨rfl, claim_C2_render_suppression exampleApp
    { recreateOk := true, recreations := 0, framesDriven := 0 } 0 rfl⟩

/-- Claim C4: if renderer recreation fails while processing the rebuilt
canvas, the state still returns to `None` (no stuck transition), the
error-reporting channel receives exactly one notification for that failure,
no fatal-error condition is set, and a subsequent rebuild request runs its
full teardown/rebuild sequence again (retry is possible). -/
theorem claim_C4_failure_recovery (app : App) (infra : Infrastructure)
    (hinf : app.infrastructure = Option.some infra)
    (hfail : infra.recreateOk = false) :
    (processEvent app ExternalEvent.RequestRebuild).1.recreating_canvas =
        RecreatingCanvas.None ∧
    (processEvent app ExternalEvent.RequestRebuild).1.reportedErrors =
        app.reportedErrors + 1 ∧
    (processEvent app ExternalEvent.RequestRebuild).1.fatal_error = app.fatal_error ∧
    (processEvent (processEvent app ExternalEvent.RequestRebuild).1
        ExternalEvent.RequestRebuild).2 =
      [RecreatingCanvas.Started, RecreatingCanvas.Finished, RecreatingCanvas.None] := by
  refine ⟨processEvent_rebuild_rc app, ?_, ?_, processEvent_rebuild_trace _⟩ <;>
    · unfold processEvent eventMsg processMsg
      simp [update, followup, rendered, recreate_renderer, hinf, hfail]

/-- Claim C4 witness: the failure-path theorem applied at a concrete idle
state whose renderer recreation fails. -/
theorem claim_C4_witness :
    failApp.infrastructure =
        Option.some { recreateOk := false, recreations := 0, framesDriven := 0 } ∧
    ((processEvent failApp ExternalEvent.RequestRebuild).1.recreating_canvas =
        RecreatingCanvas.None ∧
      (processEvent failApp ExternalEvent.RequestRebuild).1.reportedErrors = 0 + 1 ∧
      (processEvent failApp ExternalEvent.RequestRebuild).1.fatal_error = Option.none ∧
      (processEvent (processEvent failApp ExternalEvent.RequestRebuild).1
          ExternalEvent.RequestRebuild).2 =
        [RecreatingCanvas.Started, RecreatingCanvas.Finished, RecreatingCanvas.None]) :=
  ⟨rfl, claim_C4_failure_recovery failApp
    { recreateOk := false, recreations := 0, framesDriven := 0 } rfl rfl⟩

/-- Claim C5: processing `RecreateCanvas` sets the state to `Started` and
requests a re-render (`update` returns `true`), and on that render pass the
view no longer contains the canvas element; in general the rendered view
contains the canvas if and only if the lifecycle state is not `Started`. -/
theorem claim_C5_canvas_removed (app : App) :
    (update app AppMsg.RecreateCanvas).1.recreating_canvas = RecreatingCanvas.Started ∧
    (update app AppMsg.RecreateCanvas).2 = true ∧
    (view (update app AppMsg.RecreateCanvas).1).hasCanvas = false ∧
    (∀ a : App, (view a).hasCanvas = true ↔
      a.recreating_canvas ≠ RecreatingCanvas.Started) := by
  refine ⟨rfl, rfl, by simp [view, update], ?_⟩
  intro a
  simp [view]

/-- Claim C9: the `Frame` handler unconditionally registers the next
animation frame — for every state, including when rendering is suppressed
(`Started`) and when no infrastructure exists — both at the raw handler level
and for a whole processed tick event. -/
theorem claim_C9_frame_reschedules (app : App) (t : ℚ) :
    (update app (AppMsg.Frame t)).1.animationFrames = app.animationFrames + 1 ∧
    (processEvent app (ExternalEvent.Tick t)).1.animationFrames =
      app.animationFrames + 1 := by
  have h1 : (update app (AppMsg.Frame t)).1.animationFrames = app.animationFrames + 1 := by
    unfold update
    rcases happ : app.infrastructure with _ | infra <;>
      by_cases h : app.recreating_canvas = RecreatingCanvas.Started <;>
        simp [happ, h]
  exact ⟨h1, by rw [processEvent_tick_eq]; exact h1⟩

/-- Claim C10: the upgrade-progress meter is rendered exactly when
`next_level = level + 1` is at most the maximum boat level; in particular a
boat already at the maximum level shows no meter, regardless of score. -/
theorem claim_C10_meter_gating (level_to_score : Nat → Nat)
    (maxBoatLevel score level : Nat) :
    (status_overlay level_to_score maxBoatLevel score level).meterShown =
      decide (level + 1 ≤ maxBoatLevel) ∧
    (status_overlay level_to_score maxBoatLevel score maxBoatLevel).meterShown = false ∧
    (status_overlay level_to_score maxBoatLevel score level).next_level = level + 1 := by
  refine ⟨rfl, ?_, rfl⟩
  simp [status_overlay]

theorem clamped_interp_bounds (m d0 d1 : ℚ) (h0 : 0 ≤ m) (h1 : m ≤ 1) :
    min d0 d1 ≤ d0 + m * (d1 - d0) ∧ d0 + m * (d1 - d0) ≤ max d0 d1 := by
  constructor
  · rcases le_total d0 d1 with hc | hc
    · rw [min_eq_left hc]; nlinarith
    · rw [min_eq_right hc]; nlinarith
  · rcases le_total d0 d1 with hc | hc
    · rw [max_eq_right hc]; nlinarith
    · rw [max_eq_left hc]; nlinarith

/-- Claim C6: for a non-degenerate source interval, `map_ranges` computes
`t = (value - s0) / (s1 - s0)` and returns `d0 + t * (d1 - d0)`; with
`clamp = true` it first restricts `t` to `[0, 1]`, so the result lies within
`[min d0 d1, max d0 d1]` for every input value; concretely
`map_ranges 50 [0,100) [0,1) true = 1/2`,
`map_ranges 150 [0,100) [0,1) true = 1` and
`map_ranges (-10) [0,100) [0,1) true = 0`. -/
theorem claim_C6_map_range_clamped (v s0 s1 d0 d1 : ℚ) (h : s0 ≠ s1) :
    map_ranges v s0 s1 d0 d1 false = d0 + ((v - s0) / (s1 - s0)) * (d1 - d0) ∧
    map_ranges v s0 s1 d0 d1 true =
      d0 + max 0 (min 1 ((v - s0) / (s1 - s0))) * (d1 - d0) ∧
    min d0 d1 ≤ map_ranges v s0 s1 d0 d1 true ∧
    map_ranges v s0 s1 d0 d1 true ≤ max d0 d1 ∧
    map_ranges 50 0 100 0 1 true = 1/2 ∧
    map_ranges 150 0 100 0 1 true = 1 ∧
    map_ranges (-10) 0 100 0 1 true = 0 := by
  have e : map_ranges v s0 s1 d0 d1 true =
      d0 + max 0 (min 1 ((v - s0) / (s1 - s0))) * (d1 - d0) := rfl
  have h0 : (0:ℚ) ≤ max 0 (min 1 ((v - s0) / (s1 - s0))) := le_max_left _ _
  have h1 : max 0 (min 1 ((v - s0) / (s1 - s0))) ≤ 1 :=
    max_le zero_le_one (min_le_left _ _)
  obtain ⟨hb1, hb2⟩ := clamped_interp_bounds _ d0 d1 h0 h1
  refine ⟨rfl, rfl, ?_, ?_, ?_, ?_, ?_⟩
  · rw [e]; exact hb1
  · rw [e]; exact hb2
  · show (0:ℚ) + max 0 (min 1 ((50 - 0) / (100 - 0))) * (1 - 0) = 1/2
    norm_num
  · show (0:ℚ) + max 0 (min 1 ((150 - 0) / (100 - 0))) * (1 - 0) = 1
    norm_num
  · show (0:ℚ) + max 0 (min 1 ((-10 - 0) / (100 - 0))) * (1 - 0) = 0
    norm_num

/-- Claim C6 witness: the clamped-mapping theorem applied to the concrete
interval `[0, 100) → [0, 1)` at value `50`. -/
theorem claim_C6_witness :
    ((0:ℚ) ≠ 100) ∧
    (map_ranges 50 0 100 0 1 false = 0 + ((50 - 0) / (100 - 0)) * (1 - 0) ∧
      map_ranges 50 0 100 0 1 true =
        0 + max 0 (min 1 ((50 - 0) / (100 - 0))) * (1 - 0) ∧
      min (0:ℚ) 1 ≤ map_ranges 50 0 100 0 1 true ∧
      map_ranges 50 0 100 0 1 true ≤ max (0:ℚ) 1 ∧
      map_ranges 50 0 100 0 1 true = 1/2 ∧
      map_ranges 150 0 100 0 1 true = 1 ∧
      map_ranges (-10) 0 100 0 1 true = 0) :=
  ⟨by norm_num, claim_C6_map_range_clamped 50 0 100 0 1 (by norm_num)⟩

/-- Claim C7: with `clamp = false`, `map_ranges` extrapolates linearly beyond
the destination interval; in particular
`map_ranges 150 [0,100) [0,1) false = 3/2`. -/
theorem claim_C7_map_range_unclamped :
    (∀ v s0 s1 d0 d1 : ℚ,
      map_ranges v s0 s1 d0 d1 false = d0 + ((v - s0) / (s1 - s0)) * (d1 - d0)) ∧
    map_ranges 150 0 100 0 1 false = 3/2 := by
  refine ⟨fun v s0 s1 d0 d1 => rfl, ?_⟩
  show (0:ℚ) + ((150 - 0) / (100 - 0)) * (1 - 0) = 3/2
  norm_num

/-- Claim C8: for every score and boat level (with a non-degenerate score
interval between the current and the next level), the status overlay computes
the level-up progress as the clamped linear mapping of the score from
`[level_to_score level, level_to_score (level+1))` to `[0, 1)` with
`clamp = true` — so the ratio lies in `[0, 1]` — feeds exactly that ratio to
the meter widget, and displays `ratio * 100`, truncated to an integer, as the
percentage in the label. -/
theorem claim_C8_progress (level_to_score : Nat → Nat) (maxBoatLevel score level : Nat)
    (h : level_to_score level < level_to_score (level + 1)) :
    (status_overlay level_to_score maxBoatLevel score level).progress =
      max 0 (min 1 (((score : ℚ) - (level_to_score level : ℚ)) /
        ((level_to_score (level + 1) : ℚ) - (level_to_score level : ℚ)))) ∧
    0 ≤ (status_overlay level_to_score maxBoatLevel score level).progress ∧
    (status_overlay level_to_score maxBoatLevel score level).progress ≤ 1 ∧
    (status_overlay level_to_score maxBoatLevel score level).meterValue =
      (status_overlay level_to_score maxBoatLevel score level).progress ∧
    (status_overlay level_to_score maxBoatLevel score level).meterPercent =
      (Rat.floor
        ((status_overlay level_to_score maxBoatLevel score level).progress * 100)).toNat := by
  have e : (status_overlay level_to_score maxBoatLevel score level).progress =
      max 0 (min 1 (((score : ℚ) - (level_to_score level : ℚ)) /
        ((level_to_score (level + 1) : ℚ) - (level_to_score level : ℚ)))) := by
    show (0:ℚ) + max 0 (min 1 _) * (1 - 0) = _
    norm_num
  refine ⟨e, ?_, ?_, rfl, rfl⟩
  · rw [e]; exact le_max_left _ _
  · rw [e]; exact max_le zero_le_one (min_le_left _ _)

/-- Claim C8 witness: the progress theorem applied at the concrete inputs
`level_to_score n = 100 * n`, score `150`, level `1` (progress `1/2`). -/
theorem claim_C8_witness :
    ((100 : Nat) * 1 < 100 * (1 + 1)) ∧
    ((status_overlay (fun n => 100 * n) 10 150 1).progress =
        max 0 (min 1 (((150 : ℚ) - ((100 : Nat) * 1 : Nat)) /
          (((100 : Nat) * (1 + 1) : Nat) - ((100 : Nat) * 1 : Nat)))) ∧
      0 ≤ (status_overlay (fun n => 100 * n) 10 150 1).progress ∧
      (status_overlay (fun n => 100 * n) 10 150 1).progress ≤ 1 ∧
      (status_overlay (fun n => 100 * n) 10 150 1).meterValue =
        (status_overlay (fun n => 100 * n) 10 150 1).progress ∧
      (status_overlay (fun n => 100 * n) 10 150 1).meterPercent =
        (Rat.floor ((status_overlay (fun n => 100 * n) 10 150 1).progress * 100)).toNat) :=
  ⟨by norm_num, claim_C8_progress (fun n => 100 * n) 10 150 1 (by norm_num)⟩
